import Mathlib

/-
Shallow embedding of src/src/api/controllers/recipe.controller.ts:
an Express router exposing four operations on the `recipe` resource
(list with filters, get by id, create, delete), each of which runs an
express-validator chain, then `throwIfInvalid`, then a handler that logs
the request and delegates to the store.

External collaborators (the recipe service / prisma store, the request
logger, and the closed vocabularies `difficulty`, `media`, `taste`,
`unit`) are not under src/; they are modelled from the spec as
parameters (oracle functions, vocabulary lists, a store-id state).
-/

namespace RecipeController

/-- A JSON-ish request value (string, number, or boolean), as carried in
an Express request body. -/
inductive Value where
  | vStr (s : String)
  | vNum (n : Int)
  | vBool (b : Bool)
deriving DecidableEq, Repr

/-- JavaScript String() conversion of a value, as express-validator
applies before running validator.js validators and sanitizers. -/
def valueToString : Value → String
  | .vStr s => s
  | .vNum n => toString n
  | .vBool b => cond b "true" "false"

/-- express-validator coerces a missing (undefined) field to the empty
string before validator.js validators and sanitizers run. -/
def optValueToString : Option Value → String
  | none => ""
  | some v => valueToString v

/-- The trim() sanitizer (validator.js trim with default chars):
strip leading and trailing whitespace. -/
def jsTrim (s : String) : String :=
  ⟨((s.toList.dropWhile Char.isWhitespace).reverse.dropWhile Char.isWhitespace).reverse⟩

/-- JavaScript String.prototype.toLowerCase, restricted to per-character
lowercasing (the vocabulary tokens are ASCII). -/
def jsToLower (s : String) : String :=
  ⟨s.toList.map Char.toLower⟩

/-- validator.js isNumeric (default options): the string matches
[+-]?([0-9]*[.])?[0-9]+ . -/
def isNumericStr (s : String) : Bool :=
  let cs :=
    match s.toList with
    | '+' :: rest => rest
    | '-' :: rest => rest
    | cs => cs
  match cs.span Char.isDigit with
  | (ds, []) => !ds.isEmpty
  | (_, '.' :: rest) => !rest.isEmpty && rest.all Char.isDigit
  | _ => false

/-- validator.js isBoolean (default, loose = false): exactly one of
"true", "false", "0", "1". -/
def isBooleanStr (s : String) : Bool :=
  s == "true" || s == "false" || s == "0" || s == "1"

/-- validator.js toBoolean (non-strict): everything but "0", "false"
and the empty string is true. -/
def toBooleanStr (s : String) : Bool :=
  s != "0" && s != "false" && s != ""

/-- JavaScript parseInt semantics used by the toInt sanitizer: skip
surrounding whitespace, optional sign, longest digit prefix; `none`
models NaN (no leading digits). -/
def toIntStr (s : String) : Option Int :=
  let cs := s.toList.dropWhile Char.isWhitespace
  let signed : Bool × List Char :=
    match cs with
    | '-' :: rest => (true, rest)
    | '+' :: rest => (false, rest)
    | cs => (false, cs)
  let ds := signed.2.takeWhile Char.isDigit
  if ds.isEmpty then none
  else
    let n : Int := ds.foldl (fun a c => a * 10 + (Int.ofNat (c.toNat - '0'.toNat))) 0
    some (if signed.1 then -n else n)

/-- express-validator isString: the value is literally a string
(a missing field is not). -/
def vIsString : Option Value → Bool
  | some (.vStr _) => true
  | _ => false

/-- body(...).isNumeric(): the value stringified is numeric. -/
def vIsNumeric (v : Option Value) : Bool :=
  isNumericStr (optValueToString v)

/-- body(...).isBoolean(): the value stringified is a boolean token. -/
def vIsBoolean (v : Option Value) : Bool :=
  isBooleanStr (optValueToString v)

/-- The toLowerCase() sanitizer preceding each isIn membership test. -/
def enumNormalize (s : String) : String := jsToLower s

/-- .toLowerCase().isIn(Object.keys(vocab)): lowercase, then test
membership in the vocabulary's keys. -/
def enumValid (vocab : List String) (s : String) : Bool :=
  vocab.contains (enumNormalize s)

/-- Modelled from the spec: the four closed, externally-defined
vocabularies (src/src/config/models is not under src/); each is the
list of valid lowercase tokens (Object.keys of the mapping). -/
structure Vocabs where
  difficulty : List String
  media : List String
  taste : List String
  unit : List String
deriving DecidableEq, Repr

/-- The query string of GET /recipes: each declared filter field is an
optional raw string; `extra` holds undeclared query parameters. -/
structure FilterQuery where
  name : Option String := none
  servings : Option String := none
  time : Option String := none
  reference : Option String := none
  difficulty : Option String := none
  media : Option String := none
  taste : Option String := none
  vegetarian : Option String := none
  extra : List (String × String) := []
deriving DecidableEq, Repr

/-- matchedData(req) for the filter route: only declared fields that
were present and valid, with sanitizers (toInt, toLowerCase, toBoolean)
applied. Inner `none` in servings/time models parseInt returning NaN. -/
structure MatchedFilter where
  name : Option String := none
  servings : Option (Option Int) := none
  time : Option (Option Int) := none
  reference : Option String := none
  difficulty : Option String := none
  media : Option String := none
  taste : Option String := none
  vegetarian : Option Bool := none
deriving DecidableEq, Repr

/-- One validation-chain step: an empty error list when the check
passed, the field's path when it failed (validationResult accumulates
these across all chains). -/
def fieldErr (nm : String) (ok : Bool) : List String :=
  if ok then [] else [nm]

/-- FilterValidation: each chain is guarded by .if(field.exists()), so
an absent field contributes no error; name/reference are query strings,
so isString always passes on them. -/
def filterErrors (V : Vocabs) (q : FilterQuery) : List String :=
  fieldErr "name" true ++
  fieldErr "servings" (match q.servings with | none => true | some s => isNumericStr s) ++
  fieldErr "time" (match q.time with | none => true | some s => isNumericStr s) ++
  fieldErr "reference" true ++
  fieldErr "difficulty" (match q.difficulty with | none => true | some s => enumValid V.difficulty s) ++
  fieldErr "media" (match q.media with | none => true | some s => enumValid V.media s) ++
  fieldErr "taste" (match q.taste with | none => true | some s => enumValid V.taste s) ++
  fieldErr "vegetarian" (match q.vegetarian with | none => true | some s => isBooleanStr s)

/-- matchedData for the filter route: a declared field appears iff it
was present and its validator passed, carrying the sanitized value. -/
def matchedFilter (V : Vocabs) (q : FilterQuery) : MatchedFilter where
  name := q.name
  servings := match q.servings with
    | some s => if isNumericStr s then some (toIntStr s) else none
    | none => none
  time := match q.time with
    | some s => if isNumericStr s then some (toIntStr s) else none
    | none => none
  reference := q.reference
  difficulty := match q.difficulty with
    | some s => if enumValid V.difficulty s then some (enumNormalize s) else none
    | none => none
  media := match q.media with
    | some s => if enumValid V.media s then some (enumNormalize s) else none
    | none => none
  taste := match q.taste with
    | some s => if enumValid V.taste s then some (enumNormalize s) else none
    | none => none
  vegetarian := match q.vegetarian with
    | some s => if isBooleanStr s then some (toBooleanStr s) else none
    | none => none

/-- One element of the `ingredients` array of a create request body. -/
structure IngredientBody where
  name : Option Value := none
  amount : Option Value := none
  unit : Option Value := none
deriving DecidableEq, Repr

/-- The body of POST /recipe: declared fields plus any undeclared extra
fields, which express leaves untouched in req.body. `ingredients` is
`none` when absent or not an array (the wildcard chains then match no
instances). -/
structure RecipeBody where
  name : Option Value := none
  description : Option Value := none
  servings : Option Value := none
  time : Option Value := none
  reference : Option Value := none
  difficulty : Option Value := none
  media : Option Value := none
  taste : Option Value := none
  vegetarian : Option Value := none
  ingredients : Option (List IngredientBody) := none
  extra : List (String × Value) := []
deriving DecidableEq, Repr

/-- Errors of the three wildcard chains for the ingredient at index i
(paths as express-validator reports them). -/
def ingredientErrors (V : Vocabs) (i : Nat) (g : IngredientBody) : List String :=
  fieldErr ("ingredients[" ++ toString i ++ "].name") (vIsString g.name) ++
  fieldErr ("ingredients[" ++ toString i ++ "].amount") (vIsNumeric g.amount) ++
  fieldErr ("ingredients[" ++ toString i ++ "].unit") (enumValid V.unit (optValueToString g.unit))

/-- RecipeValidation: every declared body field is required (an absent
field is coerced to undefined and fails its validator); enum fields are
lowercased before the isIn membership test; the wildcard ingredient
chains run once per array element. -/
def recipeErrors (V : Vocabs) (b : RecipeBody) : List String :=
  fieldErr "name" (vIsString b.name) ++
  fieldErr "description" (vIsString b.description) ++
  fieldErr "servings" (vIsNumeric b.servings) ++
  fieldErr "time" (vIsNumeric b.time) ++
  fieldErr "reference" (vIsString b.reference) ++
  fieldErr "difficulty" (enumValid V.difficulty (optValueToString b.difficulty)) ++
  fieldErr "media" (enumValid V.media (optValueToString b.media)) ++
  fieldErr "taste" (enumValid V.taste (optValueToString b.taste)) ++
  fieldErr "vegetarian" (vIsBoolean b.vegetarian) ++
  ((b.ingredients.getD []).enum.flatMap fun p => ingredientErrors V p.1 p.2)

/-- The toLowerCase() sanitizers mutate req.body in place for the unit
of each ingredient. -/
def sanitizeIngredient (g : IngredientBody) : IngredientBody :=
  { g with unit := some (.vStr (enumNormalize (optValueToString g.unit))) }

/-- The toLowerCase() sanitizers of RecipeValidation mutate req.body in
place: difficulty, media, taste and each ingredient's unit are replaced
by their lowercased string form; all other fields, including undeclared
extras, are untouched. -/
def sanitizeRecipe (b : RecipeBody) : RecipeBody :=
  { b with
    difficulty := some (.vStr (enumNormalize (optValueToString b.difficulty)))
    media := some (.vStr (enumNormalize (optValueToString b.media)))
    taste := some (.vStr (enumNormalize (optValueToString b.taste)))
    ingredients := b.ingredients.map (fun l => l.map sanitizeIngredient) }

/-- A stored Ingredient value object (spec data model). -/
structure Ingredient where
  name : String
  amount : Int
  unit : String
deriving DecidableEq, Repr

/-- A stored Recipe entity as the store returns it (spec data model;
the store assigns the 25-character id). -/
structure Recipe where
  id : String
  name : String
  description : String
  servings : Int
  time : Int
  reference : String
  difficulty : String
  media : String
  taste : String
  vegetarian : Bool
  ingredients : List Ingredient
deriving DecidableEq, Repr

/-- The observable response of a handler. `validationError` is the
ValidationException thrown by throwIfInvalid, carrying the accumulated
validationResult. -/
inductive Response where
  | jsonList (rs : List Recipe)
  | jsonRecipe (r : Recipe)
  | notFound
  | success
  | validationError (errs : List String)
deriving DecidableEq, Repr

/-- HTTP status of a response. Modelled from the spec for
validationError (a "4xx validation error body" produced outside this
file by the ValidationException handler); 404 and 200 are explicit in
the controller. -/
def statusOf : Response → Nat
  | .jsonList _ => 200
  | .jsonRecipe _ => 200
  | .notFound => 404
  | .success => 200
  | .validationError _ => 400

/-- Plain-text body of the two text responses of the controller
(res.status(404).send of the get route, res.send of the delete route). -/
def bodyText : Response → String
  | .notFound => "Entity not found"
  | .success => "Success"
  | _ => ""

/-- Observable side effects of a handler, in order: the requestLogger
call and the single store interaction. -/
inductive Effect where
  | logged
  | storeList (f : MatchedFilter)
  | storeGet (id : String)
  | storeCreate (b : RecipeBody)
  | storeDelete (id : String)
deriving DecidableEq, Repr

/-- Recognizes a store-create interaction in an effect trace. -/
def isStoreCreate : Effect → Bool
  | .storeCreate _ => true
  | _ => false

/-- GET /recipes: FilterValidation, throwIfInvalid, then log the
request and pass matchedData(req) to getAllRecipes. The store is the
oracle `ls` (the recipe service is not under src/; per the spec it
returns the matching recipes). -/
def handleList (V : Vocabs) (ls : MatchedFilter → List Recipe) (q : FilterQuery) :
    Response × List Effect :=
  let errs := filterErrors V q
  if errs.isEmpty then
    let m := matchedFilter V q
    (.jsonList (ls m), [.logged, .storeList m])
  else
    (.validationError errs, [])

/-- GET /recipe/:id: param('id').isLength(min 25, max 25) (no trim),
throwIfInvalid, then log, call getRecipe on the matched id, and answer
404 "Entity not found" when the store reports nothing. The store is
the oracle `gs` (modelled from the spec: getRecipe(id) -> Recipe or
absent). -/
def handleGet (gs : String → Option Recipe) (id : String) : Response × List Effect :=
  if id.length = 25 then
    match gs id with
    | none => (.notFound, [.logged, .storeGet id])
    | some r => (.jsonRecipe r, [.logged, .storeGet id])
  else
    (.validationError ["id"], [])

/-- POST /recipe: RecipeValidation, throwIfInvalid, then log and pass
the whole req.body (as mutated by the sanitizers) to createRecipe,
returning its result verbatim as JSON. The store is the oracle `cs`
(modelled from the spec: createRecipe(data) -> Recipe with assigned
id). -/
def handleCreate (V : Vocabs) (cs : RecipeBody → Recipe) (b : RecipeBody) :
    Response × List Effect :=
  let errs := recipeErrors V b
  if errs.isEmpty then
    let b2 := sanitizeRecipe b
    (.jsonRecipe (cs b2), [.logged, .storeCreate b2])
  else
    (.validationError errs, [])

/-- Modelled from the spec: the store's deleteRecipe(id) -> void
(prisma.recipes.delete is not under src/): the record with that id, if
any, is removed; the operation itself returns nothing. The store state
is the list of existing ids. -/
def deleteFromStore (σ : List String) (id : String) : List String :=
  σ.filter (fun x => x ≠ id)

/-- Outcome of a delete request: the response, the effect trace, and
the store state afterwards. -/
structure DeleteOutcome where
  response : Response
  effects : List Effect
  store : List String
deriving DecidableEq, Repr

/-- DELETE /recipe/:id: param('id').trim().isLength(min 25, max 25),
throwIfInvalid, then log, issue the deletion for the matched (trimmed)
id unconditionally, and send "Success". -/
def handleDelete (σ : List String) (id : String) : DeleteOutcome :=
  let tid := jsTrim id
  if tid.length = 25 then
    { response := .success
      effects := [.logged, .storeDelete tid]
      store := deleteFromStore σ tid }
  else
    { response := .validationError ["id"]
      effects := []
      store := σ }

/-- C1: for every delete request whose id, after trimming, is exactly 25
characters, the handler issues the deletion to the store and responds
with the plain text "Success", for every store state (so regardless of
whether a recipe with that id existed); deleting the same id twice
yields a success response both times, and the second delete runs
through exactly the same path (same response, same effects): the
handler never special-cases a second delete. -/
theorem C1_delete_success_regardless_of_existence (σ : List String) (id : String)
    (h : (jsTrim id).length = 25) :
    (handleDelete σ id).response = .success ∧
    bodyText (handleDelete σ id).response = "Success" ∧
    (handleDelete σ id).effects = [.logged, .storeDelete (jsTrim id)] ∧
    (handleDelete (handleDelete σ id).store id).response = .success ∧
    (handleDelete (handleDelete σ id).store id).effects =
      [.logged, .storeDelete (jsTrim id)] := by
  simp [handleDelete, h, bodyText]

/-- Witness for C1 at a concrete 25-character id and a store containing
that id: both the first and the second delete respond "Success". -/
theorem C1_witness :
    (jsTrim "abcdefghijklmnopqrstuvwxy").length = 25 ∧
    (handleDelete ["abcdefghijklmnopqrstuvwxy"] "abcdefghijklmnopqrstuvwxy").response =
      .success ∧
    (handleDelete
        (handleDelete ["abcdefghijklmnopqrstuvwxy"] "abcdefghijklmnopqrstuvwxy").store
        "abcdefghijklmnopqrstuvwxy").response = .success := by
  refine ⟨by decide, ?_, ?_⟩
  · exact (C1_delete_success_regardless_of_existence
      ["abcdefghijklmnopqrstuvwxy"] "abcdefghijklmnopqrstuvwxy" (by decide)).1
  · exact (C1_delete_success_regardless_of_existence
      ["abcdefghijklmnopqrstuvwxy"] "abcdefghijklmnopqrstuvwxy" (by decide)).2.2.2.1

/-- C2: for each of the four operations, a request with a failing
declared field raises the ValidationError and produces no effect at
all (no request-logging, no store interaction), while a request that
passes validation produces exactly the effect trace
[logged, store interaction]: validation first, then the log, then the
store. -/
theorem C2_validate_then_log_then_store (V : Vocabs)
    (ls : MatchedFilter → List Recipe) (gs : String → Option Recipe)
    (cs : RecipeBody → Recipe) (σ : List String)
    (q : FilterQuery) (b : RecipeBody) (gid did : String) :
    (filterErrors V q ≠ [] →
      handleList V ls q = (.validationError (filterErrors V q), [])) ∧
    (filterErrors V q = [] →
      handleList V ls q =
        (.jsonList (ls (matchedFilter V q)),
         [.logged, .storeList (matchedFilter V q)])) ∧
    (gid.length ≠ 25 → handleGet gs gid = (.validationError ["id"], [])) ∧
    (gid.length = 25 → (handleGet gs gid).2 = [.logged, .storeGet gid]) ∧
    (recipeErrors V b ≠ [] →
      handleCreate V cs b = (.validationError (recipeErrors V b), [])) ∧
    (recipeErrors V b = [] →
      handleCreate V cs b =
        (.jsonRecipe (cs (sanitizeRecipe b)),
         [.logged, .storeCreate (sanitizeRecipe b)])) ∧
    ((jsTrim did).length ≠ 25 →
      (handleDelete σ did).response = .validationError ["id"] ∧
      (handleDelete σ did).effects = []) ∧
    ((jsTrim did).length = 25 →
      (handleDelete σ did).effects = [.logged, .storeDelete (jsTrim did)]) := by
  refine ⟨?_, ?_, ?_, ?_, ?_, ?_, ?_, ?_⟩ <;> intro h
  · simp [handleList, h]
  · simp [handleList, h]
  · simp [handleGet, h]
  · cases hg : gs gid <;> simp [handleGet, h, hg]
  · simp [handleCreate, h]
  · simp [handleCreate, h]
  · simp [handleDelete, h]
  · simp [handleDelete, h]

/-- Witness for C2: a filter request with a non-numeric servings value
is rejected with no effects, and a valid delete logs before the store
interaction. -/
theorem C2_witness :
    handleList ⟨["easy"], ["book"], ["sweet"], ["g"]⟩ (fun _ => [])
        { servings := some "abc" } = (.validationError ["servings"], []) ∧
    (handleDelete [] "abcdefghijklmnopqrstuvwxy").effects =
      [.logged, .storeDelete (jsTrim "abcdefghijklmnopqrstuvwxy")] := by
  have h := C2_validate_then_log_then_store ⟨["easy"], ["book"], ["sweet"], ["g"]⟩
    (fun _ => []) (fun _ => none)
    (fun _ => ⟨"", "", "", 0, 0, "", "", "", "", false, []⟩) []
    { servings := some "abc" } {} "a" "abcdefghijklmnopqrstuvwxy"
  exact ⟨(h.1 (by decide)).trans (by decide), h.2.2.2.2.2.2.2 (by decide)⟩

/-- C3: a create request with no `name` field is rejected with no store
interaction; a create request passing validation invokes the store's
create exactly once and returns the Recipe the store produced,
verbatim, as the JSON response. -/
theorem C3_create_missing_name_vs_valid (V : Vocabs)
    (cs : RecipeBody → Recipe) (b : RecipeBody) :
    (b.name = none →
      handleCreate V cs b = (.validationError (recipeErrors V b), []) ∧
      "name" ∈ recipeErrors V b ∧
      (handleCreate V cs b).2.countP isStoreCreate = 0) ∧
    (recipeErrors V b = [] →
      handleCreate V cs b =
        (.jsonRecipe (cs (sanitizeRecipe b)),
         [.logged, .storeCreate (sanitizeRecipe b)]) ∧
      (handleCreate V cs b).2.countP isStoreCreate = 1) := by
  constructor
  · intro h
    have hname : vIsString b.name = false := by simp [vIsString, h]
    have hne : recipeErrors V b ≠ [] := by
      simp [recipeErrors, fieldErr, hname]
    refine ⟨by simp [handleCreate, hne], ?_, by simp [handleCreate, hne]⟩
    simp [recipeErrors, fieldErr, hname, List.mem_append]
  · intro h
    refine ⟨by simp [handleCreate, h], ?_⟩
    simp [handleCreate, h, List.countP_cons, isStoreCreate]

/-- Witness for C3 at the spec's example payload: without `name` the
request is rejected and the store sees zero create calls; with all
fields present and valid the store result (with its assigned id) is
returned verbatim. -/
theorem C3_witness :
    (handleCreate ⟨["easy"], ["book"], ["sweet"], ["g"]⟩
        (fun _ => ⟨"abcdefghijklmnopqrstuvwxy", "Soup", "", 4, 30, "", "easy", "book",
                   "sweet", true, [⟨"Salt", 1, "g"⟩]⟩)
        { description := some (.vStr "Tomato soup"), servings := some (.vNum 4),
          time := some (.vNum 30), reference := some (.vStr "book"),
          difficulty := some (.vStr "easy"), media := some (.vStr "book"),
          taste := some (.vStr "sweet"), vegetarian := some (.vBool true),
          ingredients := some [{ name := some (.vStr "Salt"),
                                 amount := some (.vNum 1),
                                 unit := some (.vStr "g") }] }).2.countP isStoreCreate = 0 ∧
    handleCreate ⟨["easy"], ["book"], ["sweet"], ["g"]⟩
        (fun _ => ⟨"abcdefghijklmnopqrstuvwxy", "Soup", "", 4, 30, "", "easy", "book",
                   "sweet", true, [⟨"Salt", 1, "g"⟩]⟩)
        { name := some (.vStr "Soup"), description := some (.vStr "Tomato soup"),
          servings := some (.vNum 4), time := some (.vNum 30),
          reference := some (.vStr "book"), difficulty := some (.vStr "easy"),
          media := some (.vStr "book"), taste := some (.vStr "sweet"),
          vegetarian := some (.vBool true),
          ingredients := some [{ name := some (.vStr "Salt"),
                                 amount := some (.vNum 1),
                                 unit := some (.vStr "g") }] } =
      (.jsonRecipe ⟨"abcdefghijklmnopqrstuvwxy", "Soup", "", 4, 30, "", "easy", "book",
                    "sweet", true, [⟨"Salt", 1, "g"⟩]⟩,
       [.logged, .storeCreate (sanitizeRecipe
          { name := some (.vStr "Soup"), description := some (.vStr "Tomato soup"),
            servings := some (.vNum 4), time := some (.vNum 30),
            reference := some (.vStr "book"), difficulty := some (.vStr "easy"),
            media := some (.vStr "book"), taste := some (.vStr "sweet"),
            vegetarian := some (.vBool true),
            ingredients := some [{ name := some (.vStr "Salt"),
                                   amount := some (.vNum 1),
                                   unit := some (.vStr "g") }] })]) := by
  constructor
  · exact ((C3_create_missing_name_vs_valid ⟨["easy"], ["book"], ["sweet"], ["g"]⟩
      (fun _ => ⟨"abcdefghijklmnopqrstuvwxy", "Soup", "", 4, 30, "", "easy", "book",
                 "sweet", true, [⟨"Salt", 1, "g"⟩]⟩)
      { description := some (.vStr "Tomato soup"), servings := some (.vNum 4),
        time := some (.vNum 30), reference := some (.vStr "book"),
        difficulty := some (.vStr "easy"), media := some (.vStr "book"),
        taste := some (.vStr "sweet"), vegetarian := some (.vBool true),
        ingredients := some [{ name := some (.vStr "Salt"),
                               amount := some (.vNum 1),
                               unit := some (.vStr "g") }] }).1 rfl).2.2
  · exact ((C3_create_missing_name_vs_valid ⟨["easy"], ["book"], ["sweet"], ["g"]⟩
      (fun _ => ⟨"abcdefghijklmnopqrstuvwxy", "Soup", "", 4, 30, "", "easy", "book",
                 "sweet", true, [⟨"Salt", 1, "g"⟩]⟩)
      { name := some (.vStr "Soup"), description := some (.vStr "Tomato soup"),
        servings := some (.vNum 4), time := some (.vNum 30),
        reference := some (.vStr "book"), difficulty := some (.vStr "easy"),
        media := some (.vStr "book"), taste := some (.vStr "sweet"),
        vegetarian := some (.vBool true),
        ingredients := some [{ name := some (.vStr "Salt"),
                               amount := some (.vNum 1),
                               unit := some (.vStr "g") }] }).2 (by decide)).1

/-- C4: the delete route trims surrounding whitespace from the id
before the length check: any id whose trimmed form has 25 characters is
accepted (and the trimmed id is what reaches the store), and any id
whose trimmed form has 24 characters is rejected as a validation error,
regardless of whitespace padding. -/
theorem C4_delete_trims_before_length_check (σ : List String) (id : String) :
    ((jsTrim id).length = 25 →
      (handleDelete σ id).response = .success ∧
      (handleDelete σ id).effects = [.logged, .storeDelete (jsTrim id)]) ∧
    ((jsTrim id).length = 24 →
      (handleDelete σ id).response = .validationError ["id"] ∧
      (handleDelete σ id).effects = []) := by
  constructor <;> intro h <;> simp [handleDelete, h]

/-- Witness for C4: the spec's padded 25-character id is accepted and
the store receives the trimmed id, while a padded id whose trimmed form
has 24 characters is rejected. -/
theorem C4_witness :
    (handleDelete [] "  abcdefghijklmnopqrstuvwxy  ").response = .success ∧
    (handleDelete [] "  abcdefghijklmnopqrstuvwxy  ").effects =
      [.logged, .storeDelete "abcdefghijklmnopqrstuvwxy"] ∧
    (handleDelete [] "  abcdefghijklmnopqrstuvwx  ").response =
      .validationError ["id"] := by
  have h1 := (C4_delete_trims_before_length_check [] "  abcdefghijklmnopqrstuvwxy  ").1
    (by decide)
  have h2 := (C4_delete_trims_before_length_check [] "  abcdefghijklmnopqrstuvwx  ").2
    (by decide)
  exact ⟨h1.1, h1.2.trans (by decide), h2.1⟩

/-- A create payload exercising the four enumerated fields, with the
other fields fixed to the spec's valid example values. -/
def enumProbeBody (d m ta u : String) : RecipeBody where
  name := some (.vStr "Soup")
  description := some (.vStr "Tomato soup")
  servings := some (.vNum 4)
  time := some (.vNum 30)
  reference := some (.vStr "book")
  difficulty := some (.vStr d)
  media := some (.vStr m)
  taste := some (.vStr ta)
  vegetarian := some (.vBool true)
  ingredients := some [{ name := some (.vStr "Salt"), amount := some (.vNum 1),
                         unit := some (.vStr u) }]

/-- C5: every enumerated field (`difficulty`, `media`, `taste` in the
filter and the create payload, and each ingredient's `unit`) is
case-insensitive: validation depends only on the lowercased form, the
field is accepted iff the lowercase form is a vocabulary key, and the
value forwarded (matched data / sanitized body) is the lowercase
form. -/
theorem C5_enum_fields_case_insensitive (V : Vocabs) (s t d m ta u : String)
    (hst : jsToLower s = jsToLower t) :
    (filterErrors V { difficulty := some s } = filterErrors V { difficulty := some t }) ∧
    (filterErrors V { difficulty := some s } = [] ↔
      V.difficulty.contains (jsToLower s)) ∧
    (filterErrors V { media := some s } = [] ↔ V.media.contains (jsToLower s)) ∧
    (filterErrors V { taste := some s } = [] ↔ V.taste.contains (jsToLower s)) ∧
    ((matchedFilter V { difficulty := some s }).difficulty =
      if V.difficulty.contains (jsToLower s) then some (jsToLower s) else none) ∧
    (recipeErrors V (enumProbeBody s m ta u) = recipeErrors V (enumProbeBody t m ta u)) ∧
    (recipeErrors V (enumProbeBody d m ta u) = [] ↔
      (V.difficulty.contains (jsToLower d) ∧ V.media.contains (jsToLower m) ∧
       V.taste.contains (jsToLower ta) ∧ V.unit.contains (jsToLower u))) ∧
    ((sanitizeRecipe (enumProbeBody d m ta u)).difficulty = some (.vStr (jsToLower d)) ∧
     (sanitizeRecipe (enumProbeBody d m ta u)).media = some (.vStr (jsToLower m)) ∧
     (sanitizeRecipe (enumProbeBody d m ta u)).taste = some (.vStr (jsToLower ta)) ∧
     (sanitizeRecipe (enumProbeBody d m ta u)).ingredients =
       some [{ name := some (.vStr "Salt"), amount := some (.vNum 1),
               unit := some (.vStr (jsToLower u)) }]) := by
  have hsoup : vIsString (some (Value.vStr "Soup")) = true := by decide
  have hnum4 : vIsNumeric (some (Value.vNum 4)) = true := by decide
  have hnum30 : vIsNumeric (some (Value.vNum 30)) = true := by decide
  have hveg : vIsBoolean (some (Value.vBool true)) = true := by decide
  have hnum1 : vIsNumeric (some (Value.vNum 1)) = true := by decide
  refine ⟨?_, ?_, ?_, ?_, ?_, ?_, ?_, ?_⟩
  · simp [filterErrors, enumValid, enumNormalize, hst]
  · by_cases hc : jsToLower s ∈ V.difficulty <;>
      simp [filterErrors, fieldErr, enumValid, enumNormalize, hc]
  · by_cases hc : jsToLower s ∈ V.media <;>
      simp [filterErrors, fieldErr, enumValid, enumNormalize, hc]
  · by_cases hc : jsToLower s ∈ V.taste <;>
      simp [filterErrors, fieldErr, enumValid, enumNormalize, hc]
  · by_cases hc : jsToLower s ∈ V.difficulty <;>
      simp [matchedFilter, enumValid, enumNormalize, hc]
  · simp [recipeErrors, enumProbeBody, enumValid, enumNormalize,
          optValueToString, valueToString, hst]
  · by_cases hd : jsToLower d ∈ V.difficulty <;>
      by_cases hm : jsToLower m ∈ V.media <;>
        by_cases ht : jsToLower ta ∈ V.taste <;>
          by_cases hu : jsToLower u ∈ V.unit <;>
            simp [recipeErrors, enumProbeBody, fieldErr, ingredientErrors,
                  enumValid, enumNormalize, optValueToString, valueToString,
                  vIsString, hsoup, hnum4, hnum30, hveg, hnum1, hd, hm, ht, hu]
  · simp [sanitizeRecipe, sanitizeIngredient, enumProbeBody, enumNormalize,
          optValueToString, valueToString]

/-- Witness for C5 at "Hard"/"HARD" against the vocabulary
containing "hard": both casings validate identically, are accepted,
and are normalized to "hard". -/
theorem C5_witness :
    filterErrors ⟨["easy", "hard"], ["book"], ["sweet"], ["g"]⟩
        { difficulty := some "Hard" } =
      filterErrors ⟨["easy", "hard"], ["book"], ["sweet"], ["g"]⟩
        { difficulty := some "HARD" } ∧
    filterErrors ⟨["easy", "hard"], ["book"], ["sweet"], ["g"]⟩
        { difficulty := some "Hard" } = [] ∧
    (matchedFilter ⟨["easy", "hard"], ["book"], ["sweet"], ["g"]⟩
        { difficulty := some "Hard" }).difficulty = some "hard" ∧
    (sanitizeRecipe (enumProbeBody "Hard" "Book" "SWEET" "G")).difficulty =
      some (.vStr "hard") := by
  have h := C5_enum_fields_case_insensitive
    ⟨["easy", "hard"], ["book"], ["sweet"], ["g"]⟩
    "Hard" "HARD" "Hard" "Book" "SWEET" "G" (by decide)
  refine ⟨h.1, h.2.1.mpr (by decide), ?_, ?_⟩
  · exact h.2.2.2.2.1.trans (by decide)
  · exact h.2.2.2.2.2.2.2.1.trans (by decide)

/-- C6: a get request whose id does not have exactly 25 characters is
rejected with a validation error and no effect occurs: neither the
request log nor the store's get is reached. -/
theorem C6_get_wrong_length_rejected (gs : String → Option Recipe) (id : String)
    (h : id.length ≠ 25) :
    handleGet gs id = (.validationError ["id"], []) := by
  simp [handleGet, h]

/-- Witness for C6 at ids of length 24 and 26. -/
theorem C6_witness :
    handleGet (fun _ => none) "abcdefghijklmnopqrstuvwx" =
      (.validationError ["id"], []) ∧
    handleGet (fun _ => none) "abcdefghijklmnopqrstuvwxyz" =
      (.validationError ["id"], []) :=
  ⟨C6_get_wrong_length_rejected (fun _ => none) "abcdefghijklmnopqrstuvwx" (by decide),
   C6_get_wrong_length_rejected (fun _ => none) "abcdefghijklmnopqrstuvwxyz" (by decide)⟩

/-- C7: a get request with a well-formed 25-character id for which the
store reports no recipe produces the distinct not-found outcome (HTTP
404 with body "Entity not found") after logging and querying the
store; the response is never a validation error. -/
theorem C7_get_absent_is_not_found (gs : String → Option Recipe) (id : String)
    (h25 : id.length = 25) (habs : gs id = none) :
    handleGet gs id = (.notFound, [.logged, .storeGet id]) ∧
    statusOf (handleGet gs id).1 = 404 ∧
    bodyText (handleGet gs id).1 = "Entity not found" ∧
    ∀ errs, (handleGet gs id).1 ≠ .validationError errs := by
  simp [handleGet, h25, habs, statusOf, bodyText]

/-- Witness for C7 at the spec's 25-character example id over an empty
store. -/
theorem C7_witness :
    handleGet (fun _ => none) "abcdefghijklmnopqrstuvwxy" =
      (.notFound, [.logged, .storeGet "abcdefghijklmnopqrstuvwxy"]) ∧
    statusOf (handleGet (fun _ => none) "abcdefghijklmnopqrstuvwxy").1 = 404 :=
  ⟨(C7_get_absent_is_not_found (fun _ => none) "abcdefghijklmnopqrstuvwxy"
      (by decide) rfl).1,
   (C7_get_absent_is_not_found (fun _ => none) "abcdefghijklmnopqrstuvwxy"
      (by decide) rfl).2.1⟩

/-- C8: the validation result accumulates every field-level violation:
for each declared field of the create body (and for present filter
fields), a failing constraint puts that field into the error list, all
simultaneously, and the raised ValidationError carries the entire
accumulated list. -/
theorem C8_validation_accumulates_all_violations (V : Vocabs)
    (cs : RecipeBody → Recipe) (b : RecipeBody) (q : FilterQuery) :
    (vIsString b.name = false → "name" ∈ recipeErrors V b) ∧
    (vIsString b.description = false → "description" ∈ recipeErrors V b) ∧
    (vIsNumeric b.servings = false → "servings" ∈ recipeErrors V b) ∧
    (vIsNumeric b.time = false → "time" ∈ recipeErrors V b) ∧
    (vIsString b.reference = false → "reference" ∈ recipeErrors V b) ∧
    (enumValid V.difficulty (optValueToString b.difficulty) = false →
      "difficulty" ∈ recipeErrors V b) ∧
    (enumValid V.media (optValueToString b.media) = false →
      "media" ∈ recipeErrors V b) ∧
    (enumValid V.taste (optValueToString b.taste) = false →
      "taste" ∈ recipeErrors V b) ∧
    (vIsBoolean b.vegetarian = false → "vegetarian" ∈ recipeErrors V b) ∧
    (∀ s, q.servings = some s → isNumericStr s = false →
      "servings" ∈ filterErrors V q) ∧
    (∀ s, q.vegetarian = some s → isBooleanStr s = false →
      "vegetarian" ∈ filterErrors V q) ∧
    (recipeErrors V b ≠ [] →
      handleCreate V cs b = (.validationError (recipeErrors V b), [])) := by
  refine ⟨?_, ?_, ?_, ?_, ?_, ?_, ?_, ?_, ?_, ?_, ?_, ?_⟩
  · intro h; simp [recipeErrors, fieldErr, h, List.mem_append]
  · intro h; simp [recipeErrors, fieldErr, h, List.mem_append]
  · intro h; simp [recipeErrors, fieldErr, h, List.mem_append]
  · intro h; simp [recipeErrors, fieldErr, h, List.mem_append]
  · intro h; simp [recipeErrors, fieldErr, h, List.mem_append]
  · intro h; simp [recipeErrors, fieldErr, h, List.mem_append]
  · intro h; simp [recipeErrors, fieldErr, h, List.mem_append]
  · intro h; simp [recipeErrors, fieldErr, h, List.mem_append]
  · intro h; simp [recipeErrors, fieldErr, h, List.mem_append]
  · intro s hq h; simp [filterErrors, fieldErr, hq, h, List.mem_append]
  · intro s hq h; simp [filterErrors, fieldErr, hq, h, List.mem_append]
  · intro h; simp [handleCreate, h]

/-- Witness for C8: a body with every field missing accumulates (at
least) name, servings and vegetarian violations at once, and a filter
with two bad fields accumulates both. -/
theorem C8_witness :
    "name" ∈ recipeErrors ⟨["easy"], ["book"], ["sweet"], ["g"]⟩ {} ∧
    "servings" ∈ recipeErrors ⟨["easy"], ["book"], ["sweet"], ["g"]⟩ {} ∧
    "vegetarian" ∈ recipeErrors ⟨["easy"], ["book"], ["sweet"], ["g"]⟩ {} ∧
    "servings" ∈ filterErrors ⟨["easy"], ["book"], ["sweet"], ["g"]⟩
      { servings := some "abc", vegetarian := some "yes" } ∧
    "vegetarian" ∈ filterErrors ⟨["easy"], ["book"], ["sweet"], ["g"]⟩
      { servings := some "abc", vegetarian := some "yes" } := by
  have h := C8_validation_accumulates_all_violations
    ⟨["easy"], ["book"], ["sweet"], ["g"]⟩
    (fun _ => ⟨"", "", "", 0, 0, "", "", "", "", false, []⟩) {}
    { servings := some "abc", vegetarian := some "yes" }
  exact ⟨h.1 (by decide), h.2.2.1 (by decide), h.2.2.2.2.2.2.2.2.1 (by decide),
    h.2.2.2.2.2.2.2.2.2.1 "abc" rfl (by decide),
    h.2.2.2.2.2.2.2.2.2.2.1 "yes" rfl (by decide)⟩

/-- C9: the create handler forwards the entire (sanitizer-mutated)
request body to the store, extra undeclared fields included and
unfiltered, while the list handler passes only the matched, validated
filter fields: undeclared query parameters never influence validation,
the matched data, or the store call. -/
theorem C9_create_forwards_body_list_forwards_matched (V : Vocabs)
    (cs : RecipeBody → Recipe) (ls : MatchedFilter → List Recipe)
    (b : RecipeBody) (q : FilterQuery) :
    ((sanitizeRecipe b).extra = b.extra) ∧
    (recipeErrors V b = [] →
      (handleCreate V cs b).2 = [.logged, .storeCreate (sanitizeRecipe b)]) ∧
    (filterErrors V { q with extra := [] } = filterErrors V q) ∧
    (matchedFilter V { q with extra := [] } = matchedFilter V q) ∧
    (handleList V ls { q with extra := [] } = handleList V ls q) := by
  refine ⟨rfl, ?_, rfl, rfl, rfl⟩
  intro h
  simp [handleCreate, h]

/-- Witness for C9: a valid create body carrying an undeclared extra
field reaches the store with that field intact, and a filter request
with an undeclared query parameter behaves as if it were absent. -/
theorem C9_witness :
    (sanitizeRecipe { enumProbeBody "easy" "book" "sweet" "g" with
        extra := [("foo", Value.vNum 7)] }).extra = [("foo", Value.vNum 7)] ∧
    (handleCreate ⟨["easy"], ["book"], ["sweet"], ["g"]⟩
        (fun _ => ⟨"", "", "", 0, 0, "", "", "", "", false, []⟩)
        { enumProbeBody "easy" "book" "sweet" "g" with
          extra := [("foo", Value.vNum 7)] }).2 =
      [.logged, .storeCreate (sanitizeRecipe
        { enumProbeBody "easy" "book" "sweet" "g" with
          extra := [("foo", Value.vNum 7)] })] ∧
    handleList ⟨["easy"], ["book"], ["sweet"], ["g"]⟩ (fun _ => [])
        { difficulty := some "easy" } =
      handleList ⟨["easy"], ["book"], ["sweet"], ["g"]⟩ (fun _ => [])
        { difficulty := some "easy", extra := [("bar", "1")] } := by
  have h := C9_create_forwards_body_list_forwards_matched
    ⟨["easy"], ["book"], ["sweet"], ["g"]⟩
    (fun _ => ⟨"", "", "", 0, 0, "", "", "", "", false, []⟩) (fun _ => [])
    { enumProbeBody "easy" "book" "sweet" "g" with extra := [("foo", Value.vNum 7)] }
    { difficulty := some "easy", extra := [("bar", "1")] }
  exact ⟨h.1, h.2.1 (by decide), h.2.2.2.2⟩

/-- C10: the get route, unlike the delete route, does not trim the id
before the length check: an id of exactly 25 characters is accepted
and forwarded to the store as-is even if it contains surrounding
whitespace, while an id of 25 non-whitespace characters padded with
extra whitespace exceeds length 25 and is rejected (even though the
delete route accepts that very same padded id). -/
theorem C10_get_does_not_trim (gs : String → Option Recipe) (id : String) :
    (id.length = 25 → (handleGet gs id).2 = [.logged, .storeGet id]) ∧
    (25 < id.length → handleGet gs id = (.validationError ["id"], [])) ∧
    (∀ σ : List String, (jsTrim id).length = 25 → 25 < id.length →
      handleGet gs id = (.validationError ["id"], []) ∧
      (handleDelete σ id).response = .success) := by
  refine ⟨?_, ?_, ?_⟩
  · intro h; cases hg : gs id <;> simp [handleGet, h, hg]
  · intro h; simp [handleGet, show id.length ≠ 25 by omega]
  · intro σ h25 hgt
    exact ⟨by simp [handleGet, show id.length ≠ 25 by omega],
           by simp [handleDelete, h25]⟩

/-- Witness for C10: a 25-character id with a leading space is accepted
by the get route and forwarded untrimmed, while the whitespace-padded
29-character id (trimmed form 25) is rejected by the get route and
accepted by the delete route. -/
theorem C10_witness :
    (handleGet (fun _ => none) " bcdefghijklmnopqrstuvwxy").2 =
      [.logged, .storeGet " bcdefghijklmnopqrstuvwxy"] ∧
    handleGet (fun _ => none) "  abcdefghijklmnopqrstuvwxy  " =
      (.validationError ["id"], []) ∧
    (handleDelete [] "  abcdefghijklmnopqrstuvwxy  ").response = .success := by
  have h1 := (C10_get_does_not_trim (fun _ => none) " bcdefghijklmnopqrstuvwxy").1
    (by decide)
  have h2 := (C10_get_does_not_trim (fun _ => none) "  abcdefghijklmnopqrstuvwxy  ").2.2
    [] (by decide) (by decide)
  exact ⟨h1, h2.1, h2.2⟩

end RecipeController
